import Mathlib

/-!
Verification of the double-bar visualization
(`src/examples/double_bar/double_bar.ts`).

Shallow embedding conventions:
* JS numbers are modeled as `ℚ`; a JS `NaN`/`undefined` numeric result is
  modeled as `none : Option ℚ` where it can actually arise (the `d3.extent`
  maximum of an empty row list, `Math.max` over `undefined`, and a linear
  scale whose domain holds `NaN`).
* JS strings manipulated character-by-character (`truncateText`) are modeled
  as `List Char`; `slice(0, -1)` is `List.dropLast`.
* Browser text measurement (`getComputedTextLength`) is an abstract
  parameter (`wf : List Char → ℚ` for truncation, `measure : ℚ → ℚ` for the
  width of a rendered numeric value text).
* The d3 scale semantics are transcribed from `d3-scale`:
  - `continuous.js` `normalize(a, b)`: when `b - a` is `0` it returns the
    constant `0.5`, so a degenerate domain maps every input to the midpoint
    of the range; when `b - a` is `NaN` it returns the constant `NaN`.
  - `band.js` `rescale()`: `step = (stop - start) / max(1, n - paddingInner
    + paddingOuter * 2)` with `start`/`stop` the range endpoints ordered
    increasingly, and `bandwidth = step * (1 - paddingInner)`; the
    `paddingInner` setter clamps its argument with `Math.min(1, _)`.
* DOM state is modeled by counting nodes: the retained `svgRows` selection
  (`Option Nat`, `none` before the first render), the number of
  `g.chart-row` groups in the svg, and the number of `.title` text nodes.
-/

/-- One chart row, as produced by `createChartData`
(interface `DoubleBarRow` in the source). -/
structure DoubleBarRow where
  name : String
  left : ℚ
  right : ℚ
deriving DecidableEq

/-- The adapted chart data (interface `DoubleBarData` in the source). -/
structure DoubleBarData where
  rows : List DoubleBarRow
  leftTitle : String
  rightTitle : String
deriving DecidableEq

/-- The shape of the host's query response that validation inspects:
counts of dimension fields, measure fields and pivots. -/
structure QueryShape where
  dimensions : Nat
  measures : Nat
  pivots : Nat
deriving DecidableEq

/-- The mutable visualization instance (interface `DoubleBar` in the
source), restricted to the fields the verified claims depend on.  The
scale objects are represented by their stored configuration: the linear
value scales by their domain pair (the range is re-derived from the
geometry getters at each use, exactly as `setupSizing` re-sets it each
cycle), the band scale by its domain list.  Fields that are `undefined`
before the first update cycle (`width`, `height`, `maxBarLabelWidth`) are
initialized to `0`; every read of them in the source happens after they
were assigned in the same cycle. -/
structure DoubleBar where
  width : ℚ
  height : ℚ
  maxBarLabelWidth : ℚ
  leftDomain : ℚ × Option ℚ
  rightDomain : ℚ × Option ℚ
  rowDomain : List Nat
  svgRows : Option Nat
  sceneRowGroups : Nat
  titleCount : Nat
deriving DecidableEq

/-- `sequence(size)` from the source: a sequential array `[0, …, size-1]`
(named `sequenceArray` here because Mathlib already declares `sequence`). -/
def sequenceArray (size : Nat) : List Nat :=
  List.range size

/-- `ratio = item.right > 0 ? item.left / item.right : 0` from
`rowTooltipSelector`. -/
def rowTooltipRatioValue (item : DoubleBarRow) : ℚ :=
  if item.right > 0 then item.left / item.right else 0

/-- ECMAScript `Number.prototype.toFixed(0)`: for a negative argument the
sign is emitted and the absolute value is rounded; rounding picks the
integer nearest to the (absolute) value, ties going to the larger
integer, i.e. `⌊x + 1/2⌋`. -/
def jsToFixed0 (x : ℚ) : String :=
  if x < 0 then "-" ++ toString (Int.floor (-x + 1 / 2)) else toString (Int.floor (x + 1 / 2))

/-- `rowTooltipSelector` from the source:
`` `<span>Ratio: ${(ratio * 100).toFixed(0)}%</span>` ``. -/
def rowTooltipSelector (item : DoubleBarRow) : String :=
  "<span>Ratio: " ++ jsToFixed0 (rowTooltipRatioValue item * 100) ++ "%</span>"

/-- One step of the `d3.extent` scan, restricted to the maximum being
tracked: the first comparable value initializes the maximum, later values
update it. -/
def d3ExtentStep (acc : Option ℚ) (v : ℚ) : Option ℚ :=
  match acc with
  | none => some v
  | some m => some (max m v)

/-- The maximum component of `d3.extent(rows, selector)`; `none` models the
`undefined` returned for an empty row list. -/
def d3ExtentMax (l : List ℚ) : Option ℚ :=
  l.foldl d3ExtentStep none

/-- JS `Math.max(a, b)` where either argument may be `undefined`
(modeled `none`): `Math.max` coerces `undefined` to `NaN` and any `NaN`
argument makes the result `NaN`. -/
def jsMax (a b : Option ℚ) : Option ℚ :=
  match a, b with
  | some x, some y => some (max x y)
  | _, _ => none

/-- Application of a d3 linear scale with domain `[d0, d1]` and range
`[r0, r1]` (`d3-scale` `continuous.js`, default interpolator, no clamp):
`normalize(d0, d1)` is `x ↦ (x - d0) / (d1 - d0)` when `d1 - d0 ≠ 0`, the
constant `0.5` when `d1 - d0 = 0`, and the constant `NaN` when the domain
holds `NaN`; the result is `r0 + t * (r1 - r0)`.  `d1 = none` models a
`NaN` domain bound, and the output `none` models a `NaN` result. -/
def scaleLinearApply (d0 : ℚ) (d1 : Option ℚ) (r0 r1 x : ℚ) : Option ℚ :=
  match d1 with
  | none => none
  | some m =>
    if m - d0 = 0 then some (r0 + 1 / 2 * (r1 - r0))
    else some (r0 + (x - d0) / (m - d0) * (r1 - r0))

/-- Configuration of a d3 band scale (`d3-scale` `band.js`): domain size,
paddings, and the two range endpoints as given. -/
structure BandConfig where
  n : Nat
  paddingInner : ℚ
  paddingOuter : ℚ
  r0 : ℚ
  r1 : ℚ

/-- `step` of a d3 band scale (`band.js` `rescale()`): the range endpoints
are reordered increasingly (`reverse` handling), then
`step = (stop - start) / max(1, n - paddingInner + paddingOuter * 2)`. -/
def bandStep (c : BandConfig) : ℚ :=
  (max c.r0 c.r1 - min c.r0 c.r1) / max 1 ((c.n : ℚ) - c.paddingInner + c.paddingOuter * 2)

/-- `bandwidth` of a d3 band scale: `step * (1 - paddingInner)`. -/
def bandBandwidth (c : BandConfig) : ℚ :=
  bandStep c * (1 - c.paddingInner)

/-- The `rowYPosition` band scale as configured by `setupInputs` (inner
padding `.7` clamped by the `paddingInner` setter's `Math.min(1, _)`, outer
padding read back as `paddingInner() / 2`) and `setupSizing`
(range `[15, this.height]`). -/
def rowBandConfig (st : DoubleBar) : BandConfig :=
  { n := st.rowDomain.length
    paddingInner := min 1 (7 / 10)
    paddingOuter := min 1 (7 / 10) / 2
    r0 := 15
    r1 := st.height }

/-- Getter `graphWidth`: `this.width * .65`. -/
def graphWidth (st : DoubleBar) : ℚ :=
  st.width * (65 / 100)

/-- Getter `legendWidth`: `this.width - (this.graphWidth + 10)`. -/
def legendWidth (st : DoubleBar) : ℚ :=
  st.width - (graphWidth st + 10)

/-- Getter `legendTextWidth`: `this.legendWidth - 8`. -/
def legendTextWidth (st : DoubleBar) : ℚ :=
  legendWidth st - 8

/-- Getter `halfGraphWidth`: `this.graphWidth / 2`. -/
def halfGraphWidth (st : DoubleBar) : ℚ :=
  graphWidth st / 2

/-- Getter `halfGraphBarMaxWidth`:
`this.halfGraphWidth - (this.maxBarLabelWidth + 10)`. -/
def halfGraphBarMaxWidth (st : DoubleBar) : ℚ :=
  halfGraphWidth st - (st.maxBarLabelWidth + 10)

/-- Getter `titleTextWidth`: `this.halfGraphWidth - 10`. -/
def titleTextWidth (st : DoubleBar) : ℚ :=
  halfGraphWidth st - 10

/-- Getter `rowHeight`: `this.rowYPosition.step()`. -/
def rowHeight (st : DoubleBar) : ℚ :=
  bandStep (rowBandConfig st)

/-- Getter `barHeight`: `this.rowYPosition.bandwidth()`. -/
def barHeight (st : DoubleBar) : ℚ :=
  bandBandwidth (rowBandConfig st)

/-- Getter `barMargin`: `(this.rowHeight - this.barHeight) / 2`. -/
def barMargin (st : DoubleBar) : ℚ :=
  (rowHeight st - barHeight st) / 2

/-- Getter `rowHighlightThickness`: `this.rowHeight`. -/
def rowHighlightThickness (st : DoubleBar) : ℚ :=
  rowHeight st

/-- Getter `barOriginX`: `this.width - this.halfGraphWidth`. -/
def barOriginX (st : DoubleBar) : ℚ :=
  st.width - halfGraphWidth st

/-- The `leftBarWidth` scale applied to a value, with its domain as stored
and its range `[1, this.halfGraphBarMaxWidth]` as set by `setupSizing`. -/
def leftBarWidthAt (st : DoubleBar) (x : ℚ) : Option ℚ :=
  scaleLinearApply st.leftDomain.1 st.leftDomain.2 1 (halfGraphBarMaxWidth st) x

/-- The `rightBarWidth` scale applied to a value, with its domain as stored
and its range `[1, this.halfGraphBarMaxWidth]` as set by `setupSizing`. -/
def rightBarWidthAt (st : DoubleBar) (x : ℚ) : Option ℚ :=
  scaleLinearApply st.rightDomain.1 st.rightDomain.2 1 (halfGraphBarMaxWidth st) x

/-- The `x` attribute of a `text.left-value` label (`setupSizing`):
`this.barOriginX - this.leftBarWidth(rowLeftSelector(item)) - 5`. -/
def leftValueLabelX (st : DoubleBar) (v : ℚ) : Option ℚ :=
  (leftBarWidthAt st v).map (fun bw => barOriginX st - bw - 5)

/-- The `x` attribute of a `text.right-value` label (`setupSizing`):
`this.barOriginX + this.rightBarWidth(rowRightSelector(item)) + 5`. -/
def rightValueLabelX (st : DoubleBar) (v : ℚ) : Option ℚ :=
  (rightBarWidthAt st v).map (fun bw => barOriginX st + bw + 5)

/-- The `text-anchor` attribute set on `text.left-value` in `setupRender`. -/
def leftValueTextAnchor : String :=
  "end"

/-- The effective `text-anchor` of `text.right-value`: `setupRender` sets
none, so the SVG default applies. -/
def rightValueTextAnchor : String :=
  "start"

/-- The `x` attribute of a `rect.left-bar` (`setupSizing`):
`this.barOriginX - this.leftBarWidth(rowLeftSelector(item))`. -/
def leftBarXAttr (st : DoubleBar) (v : ℚ) : Option ℚ :=
  (leftBarWidthAt st v).map (fun bw => barOriginX st - bw)

/-- The `x` attribute of a `rect.right-bar` (`setupSizing`):
`this.barOriginX`. -/
def rightBarXAttr (st : DoubleBar) : ℚ :=
  barOriginX st

/-- Modelled from the spec: `handleErrors` lives in `src/common/utils`,
which is not present under `src/`; per the spec it is "a pure function
taking the visualization instance and the query metadata, returning
whether the shape matches required cardinalities", checking the supplied
minimum/maximum counts of pivots, dimensions and measures. -/
def handleErrors (q : QueryShape)
    (minPivots maxPivots minDims maxDims minMeasures maxMeasures : Nat) : Bool :=
  decide (minPivots ≤ q.pivots ∧ q.pivots ≤ maxPivots ∧
    minDims ≤ q.dimensions ∧ q.dimensions ≤ maxDims ∧
    minMeasures ≤ q.measures ∧ q.measures ≤ maxMeasures)

/-- `validateInputs` from the source: `handleErrors` with
`min_pivots: 0, max_pivots: 0, min_dimensions: 1, max_dimensions: 1,
min_measures: 2, max_measures: 2`. -/
def validateInputs (q : QueryShape) : Bool :=
  handleErrors q 0 0 1 1 2 2

/-- `setupInputs` from the source: sets both value-scale domains to
`[0, Math.max(leftMax, rightMax)]` where the maxima come from `d3.extent`,
and configures `rowYPosition` with inner padding `.7`, outer padding
`paddingInner() / 2`, and domain `sequence(rows.length)`.  (The tooltip
construction has no effect on the modeled fields; the tooltip's html
callback is `rowTooltipSelector`.) -/
def setupInputs (st : DoubleBar) (d : DoubleBarData) : DoubleBar :=
  let leftMax := d3ExtentMax (d.rows.map DoubleBarRow.left)
  let rightMax := d3ExtentMax (d.rows.map DoubleBarRow.right)
  let maxOfBoth := jsMax leftMax rightMax
  { st with
    leftDomain := (0, maxOfBoth)
    rightDomain := (0, maxOfBoth)
    rowDomain := sequenceArray d.rows.length }

/-- `determineMaxBarValueWidth` from the source: resets
`maxBarLabelWidth` to `0`, then folds the running maximum of the measured
widths of every left value text and then of every right value text.
`measure` abstracts the width of the provisional sans-serif size-12 text
node rendered for a numeric value (the provisional nodes are removed
again, so no other field changes). -/
def determineMaxBarValueWidth (measure : ℚ → ℚ) (st : DoubleBar)
    (rowData : List DoubleBarRow) : DoubleBar :=
  let m1 := rowData.foldl (fun acc r => max acc (measure r.left)) 0
  let m2 := rowData.foldl (fun acc r => max acc (measure r.right)) m1
  { st with maxBarLabelWidth := m2 }

/-- `setupRender` from the source, restricted to its effect on the modeled
scene counts: if a prior `svgRows` selection exists its nodes are removed
from the scene; one `g.chart-row` group is created per data row and
retained as the new `svgRows` selection; two fresh title text nodes
(`left-title`, `right-title`) are appended to the svg unconditionally. -/
def setupRender (st : DoubleBar) (d : DoubleBarData) : DoubleBar :=
  let remaining :=
    match st.svgRows with
    | some k => st.sceneRowGroups - k
    | none => st.sceneRowGroups
  { st with
    svgRows := some d.rows.length
    sceneRowGroups := remaining + d.rows.length
    titleCount := st.titleCount + 2 }

/-- `updateAsync` from the source: validation aborts the cycle with a bare
`return` (no state change, callback not invoked); otherwise the cycle
stores the element size, runs `setupInputs`, `determineMaxBarValueWidth`,
`setupRender` and `setupSizing`, and invokes `doneRendering` once.
`setupSizing` only re-derives scale ranges and writes DOM attributes
(modeled by the attribute functions above), so it changes no modeled
field.  The second component counts the `doneRendering` invocations. -/
def updateAsync (measure : ℚ → ℚ) (st : DoubleBar) (clientWidth clientHeight : ℚ)
    (q : QueryShape) (d : DoubleBarData) : DoubleBar × Nat :=
  if validateInputs q then
    let st1 := { st with width := clientWidth, height := clientHeight }
    let st2 := setupInputs st1 d
    let st3 := determineMaxBarValueWidth measure st2 d.rows
    let st4 := setupRender st3 d
    (st4, 1)
  else (st, 0)

/-- The visualization object as registered (`const vis: DoubleBar`):
default linear scales have domain `[0, 1]`, the band scale has an empty
domain, no svg rows and no title nodes exist yet. -/
def initialVis : DoubleBar :=
  { width := 0
    height := 0
    maxBarLabelWidth := 0
    leftDomain := (0, some 1)
    rightDomain := (0, some 1)
    rowDomain := []
    svgRows := none
    sceneRowGroups := 0
    titleCount := 0 }

/-- A sequence of host-triggered update cycles with fixed element size and
query shape: each event runs one full `updateAsync`. -/
def runCycles (measure : ℚ → ℚ) (clientWidth clientHeight : ℚ) (q : QueryShape)
    (st : DoubleBar) (ds : List DoubleBarData) : DoubleBar :=
  ds.foldl (fun s d => (updateAsync measure s clientWidth clientHeight q d).1) st

/-- The retained `svgRows` selection matches the `g.chart-row` nodes
actually in the scene (holds for `initialVis` and is preserved by
`updateAsync`). -/
def svgConsistent (st : DoubleBar) : Prop :=
  match st.svgRows with
  | none => st.sceneRowGroups = 0
  | some k => st.sceneRowGroups = k

/-- The body of `truncateText`'s per-element callback: while the measured
width of the displayed text exceeds `width` and the working string is
nonempty, drop the working string's last character and display it with a
trailing ellipsis, re-measuring each time.  `fuel` bounds the iteration
count; each iteration shortens the working string by one character, so
`fuel = text.length` makes the recursion agree with the source's
`while` loop.  `wf` abstracts `getComputedTextLength` on the element. -/
def truncGo (wf : List Char → ℚ) (width : ℚ) :
    Nat → List Char → List Char → List Char
  | 0, _, displayed => displayed
  | fuel + 1, text, displayed =>
    if wf displayed > width ∧ 0 < text.length then
      truncGo wf width fuel text.dropLast (text.dropLast ++ ['…'])
    else displayed

/-- `truncateText(width)` from the source, applied to an element whose
current text is `text`: the element's final displayed text. -/
def truncateText (wf : List Char → ℚ) (width : ℚ) (text : List Char) : List Char :=
  truncGo wf width text.length text text

/-! ## Helper lemmas -/

lemma d3ExtentMax_from (v : ℚ) (l : List ℚ) :
    List.foldl d3ExtentStep (some v) l = some (List.foldl max v l) := by
  induction l generalizing v with
  | nil => rfl
  | cons a l ih =>
    rw [List.foldl_cons, List.foldl_cons]
    exact ih (max v a)

lemma d3ExtentMax_cons (a : ℚ) (l : List ℚ) :
    d3ExtentMax (a :: l) = some (List.foldl max a l) := by
  unfold d3ExtentMax
  rw [List.foldl_cons]
  exact d3ExtentMax_from a l

lemma foldl_max_all_zero (l : List ℚ) (h : ∀ a ∈ l, a = 0) :
    List.foldl max (0 : ℚ) l = 0 := by
  induction l with
  | nil => rfl
  | cons a l ih =>
    have ha : a = 0 := h a (by simp)
    rw [List.foldl_cons, ha, max_self]
    exact ih fun b hb => h b (by simp [hb])

lemma updateAsync_valid (measure : ℚ → ℚ) (st : DoubleBar) (w h : ℚ)
    (q : QueryShape) (d : DoubleBarData) (hq : validateInputs q = true) :
    updateAsync measure st w h q d =
      (setupRender (determineMaxBarValueWidth measure
        (setupInputs { st with width := w, height := h } d) d.rows) d, 1) := by
  unfold updateAsync
  rw [hq]
  simp

lemma updateAsync_invalid (measure : ℚ → ℚ) (st : DoubleBar) (w h : ℚ)
    (q : QueryShape) (d : DoubleBarData) (hq : validateInputs q = false) :
    updateAsync measure st w h q d = (st, 0) := by
  unfold updateAsync
  rw [hq]
  simp

/-! ## Claims -/

/-- Claim C2: after `setupInputs` configures the domains, the left value
scale and the right value scale hold the identical domain
`[0, max(maxLeft, maxRight)]`, whose upper bound is the pooled maximum of
both measures (stated for an arbitrary nonempty row set written as head
`x` and tail `xs`; the maximum of all left values is
`List.foldl max x.left` over the remaining left values, likewise for the
right values). -/
theorem C2_shared_value_domains (st : DoubleBar) (lt rt : String)
    (x : DoubleBarRow) (xs : List DoubleBarRow) :
    (setupInputs st ⟨x :: xs, lt, rt⟩).leftDomain
        = (setupInputs st ⟨x :: xs, lt, rt⟩).rightDomain ∧
    (setupInputs st ⟨x :: xs, lt, rt⟩).leftDomain
        = (0, some (max (List.foldl max x.left (xs.map DoubleBarRow.left))
            (List.foldl max x.right (xs.map DoubleBarRow.right)))) := by
  constructor
  · rfl
  · unfold setupInputs
    simp [d3ExtentMax_cons, jsMax]

/-- Claim C3: the derived geometry getters satisfy
`graphWidth = width * 0.65`, `halfGraphWidth = graphWidth / 2`,
`halfGraphBarMaxWidth = halfGraphWidth - (maxBarLabelWidth + 10)`,
`titleTextWidth = halfGraphWidth - 10`, `barOriginX = width -
halfGraphWidth`, and each is a pure function of `width`, `height` and
`maxBarLabelWidth` alone: two instance states agreeing on those fields
yield identical values for every getter. -/
theorem C3_geometry_formulas_pure (s t : DoubleBar)
    (hw : s.width = t.width) (hh : s.height = t.height)
    (hm : s.maxBarLabelWidth = t.maxBarLabelWidth) :
    graphWidth s = s.width * (65 / 100) ∧
    halfGraphWidth s = graphWidth s / 2 ∧
    halfGraphBarMaxWidth s = halfGraphWidth s - (s.maxBarLabelWidth + 10) ∧
    titleTextWidth s = halfGraphWidth s - 10 ∧
    barOriginX s = s.width - halfGraphWidth s ∧
    graphWidth s = graphWidth t ∧
    halfGraphWidth s = halfGraphWidth t ∧
    halfGraphBarMaxWidth s = halfGraphBarMaxWidth t ∧
    titleTextWidth s = titleTextWidth t ∧
    barOriginX s = barOriginX t := by
  have hg : graphWidth s = graphWidth t := by
    unfold graphWidth
    rw [hw]
  have hhg : halfGraphWidth s = halfGraphWidth t := by
    unfold halfGraphWidth
    rw [hg]
  refine ⟨rfl, rfl, rfl, rfl, rfl, hg, hhg, ?_, ?_, ?_⟩
  · unfold halfGraphBarMaxWidth
    rw [hhg, hm]
  · unfold titleTextWidth
    rw [hhg]
  · unfold barOriginX
    rw [hhg, hw]

/-- Witness for C3 at a concrete pair of (identical) states. -/
theorem C3_geometry_formulas_pure_witness :
    graphWidth initialVis = initialVis.width * (65 / 100) :=
  (C3_geometry_formulas_pure initialVis initialVis rfl rfl rfl).1

/-- Claim C7: for every instance state (any row count and container
height), the row geometry derived from the band scale satisfies
`0 ≤ barMargin` and `barHeight ≤ rowHeight` (`rowHeight` is the scale's
step, `barHeight` its bandwidth). -/
theorem C7_row_geometry_invariants (st : DoubleBar) :
    0 ≤ barMargin st ∧ barHeight st ≤ rowHeight st := by
  have hstep : 0 ≤ bandStep (rowBandConfig st) := by
    unfold bandStep
    apply div_nonneg
    · exact sub_nonneg.mpr min_le_max
    · exact le_trans zero_le_one (le_max_left _ _)
  have hb : barHeight st = bandStep (rowBandConfig st) * (3 / 10) := by
    unfold barHeight bandBandwidth rowBandConfig
    norm_num
  have hr : rowHeight st = bandStep (rowBandConfig st) := rfl
  constructor
  · unfold barMargin
    rw [hr, hb]
    nlinarith [hstep]
  · rw [hr, hb]
    nlinarith [hstep]

lemma truncGo_result (wf : List Char → ℚ) (width : ℚ) :
    ∀ (fuel : Nat) (text displayed : List Char), text.length ≤ fuel →
      wf (truncGo wf width fuel text displayed) ≤ width ∨
      truncGo wf width fuel text displayed = ['…'] ∨
      (truncGo wf width fuel text displayed = displayed ∧ text = []) := by
  intro fuel
  induction fuel with
  | zero =>
    intro text displayed h
    exact Or.inr (Or.inr ⟨rfl, List.length_eq_zero.mp (Nat.le_zero.mp h)⟩)
  | succ n ih =>
    intro text displayed h
    by_cases hc : wf displayed > width ∧ 0 < text.length
    · have hlen : text.dropLast.length ≤ n := by
        rw [List.length_dropLast]
        omega
      have hstep : truncGo wf width (n + 1) text displayed
          = truncGo wf width n text.dropLast (text.dropLast ++ ['…']) := by
        rw [truncGo, if_pos hc]
      rcases ih text.dropLast (text.dropLast ++ ['…']) hlen with h1 | h1 | h1
      · exact Or.inl (hstep ▸ h1)
      · exact Or.inr (Or.inl (hstep ▸ h1))
      · refine Or.inr (Or.inl ?_)
        rw [hstep, h1.1, h1.2]
        rfl
    · have hstep : truncGo wf width (n + 1) text displayed = displayed := by
        rw [truncGo, if_neg hc]
      rcases not_and_or.mp hc with h1 | h1
      · refine Or.inl ?_
        rw [hstep]
        exact not_lt.mp h1
      · exact Or.inr (Or.inr ⟨hstep,
          List.length_eq_zero.mp (Nat.eq_zero_of_not_pos h1)⟩)

/-- Claim C6 (amended): if the full text's rendered width already fits,
`truncateText` leaves it unchanged; otherwise the final displayed text
either has rendered width at most `w`, or is the single ellipsis
character `"…"` — not the empty string — when even one remaining
character plus the ellipsis still exceeded `w`, or is empty only because
the input itself was empty.  (Strings are modeled as character lists and
`getComputedTextLength` as the abstract measure `wf`.) -/
theorem C6_truncation_amended (wf : List Char → ℚ) (width : ℚ)
    (text : List Char) :
    (wf text ≤ width → truncateText wf width text = text) ∧
    (wf (truncateText wf width text) ≤ width ∨
      truncateText wf width text = ['…'] ∨
      (truncateText wf width text = [] ∧ text = [])) := by
  constructor
  · intro hfit
    cases text with
    | nil => rfl
    | cons a l =>
      show truncGo wf width (a :: l).length (a :: l) (a :: l) = a :: l
      rw [List.length_cons, truncGo,
        if_neg fun hcon => absurd hcon.1 (not_lt.mpr hfit)]
  · rcases truncGo_result wf width text.length text text le_rfl with h | h | h
    · exact Or.inl h
    · exact Or.inr (Or.inl h)
    · refine Or.inr (Or.inr ⟨?_, h.2⟩)
      show truncGo wf width text.length text text = []
      rw [h.1, h.2]

/-- Witness for C6 (amended) at a fitting concrete input. -/
theorem C6_truncation_amended_witness :
    truncateText (fun s => (s.length : ℚ)) 10 ['h', 'i'] = ['h', 'i'] :=
  (C6_truncation_amended (fun s => (s.length : ℚ)) 10 ['h', 'i']).1 (by norm_num)

/-- Counterexample to claim C6 as stated: truncating `"a"` to a maximum
width of `0` (with character count as the measure) leaves the single
ellipsis `"…"`, which neither fits within the maximum width nor is the
empty string the claim promises. -/
theorem C6_truncation_counterexample :
    truncateText (fun s => ((s.length : ℚ))) 0 ['a'] = ['…'] ∧
    ¬ (((truncateText (fun s => ((s.length : ℚ))) 0 ['a']).length : ℚ) ≤ 0 ∨
      truncateText (fun s => ((s.length : ℚ))) 0 ['a'] = []) := by
  constructor
  · rfl
  · rw [show truncateText (fun s => ((s.length : ℚ))) 0 ['a'] = ['…'] from rfl]
    simp

/-- Claim C1 (amended): the completion callback is invoked exactly once,
at the end of the cycle, when validation passes; when validation fails
`updateAsync` aborts with a bare `return`, invoking the callback zero
times and leaving the instance untouched. -/
theorem C1_completion_callback_amended (measure : ℚ → ℚ) (st : DoubleBar)
    (w h : ℚ) (q : QueryShape) (d : DoubleBarData) :
    (validateInputs q = true → (updateAsync measure st w h q d).2 = 1) ∧
    (validateInputs q = false → updateAsync measure st w h q d = (st, 0)) := by
  constructor
  · intro hq
    rw [updateAsync_valid measure st w h q d hq]
  · intro hq
    exact updateAsync_invalid measure st w h q d hq

/-- Witness for C1 (amended) at a concrete passing query shape. -/
theorem C1_completion_callback_amended_witness :
    (updateAsync (fun _ => (0 : ℚ)) initialVis 600 200 ⟨1, 2, 0⟩
      ⟨[⟨"a", 1, 2⟩], "L", "R"⟩).2 = 1 :=
  (C1_completion_callback_amended (fun _ => (0 : ℚ)) initialVis 600 200 ⟨1, 2, 0⟩
    ⟨[⟨"a", 1, 2⟩], "L", "R"⟩).1 rfl

/-- Counterexample to claim C1 as stated: an update whose query metadata
has 2 dimensions fails validation and the completion callback is invoked
zero times, not once. -/
theorem C1_completion_callback_counterexample :
    (updateAsync (fun _ => (0 : ℚ)) initialVis 600 200 ⟨2, 2, 0⟩
      ⟨[], "L", "R"⟩).2 = 0 ∧ (0 : Nat) ≠ 1 := by
  exact ⟨rfl, by decide⟩

/-- Claim C9 (amended): for a row with `right > 0` and `left ≥ 0` the
tooltip displays `round(100 * left / right)` percent (`toFixed(0)`
rounding, i.e. nearest integer with ties upward); for every row with
`right ≤ 0` — not only `right = 0` — it displays `0%`, so the division
never occurs.  (For `left < 0` the display follows JS `toFixed` sign
handling, e.g. `-0`, which is outside this statement.) -/
theorem C9_tooltip_amended (item : DoubleBarRow) :
    (0 < item.right → 0 ≤ item.left →
      rowTooltipSelector item = "<span>Ratio: "
        ++ toString (Int.floor (item.left / item.right * 100 + 1 / 2)) ++ "%</span>") ∧
    (item.right ≤ 0 → rowTooltipSelector item = "<span>Ratio: 0%</span>") := by
  constructor
  · intro hr hl
    have hnn : ¬ item.left / item.right * 100 < 0 := by
      push_neg
      exact mul_nonneg (div_nonneg hl (le_of_lt hr)) (by norm_num)
    unfold rowTooltipSelector rowTooltipRatioValue jsToFixed0
    rw [if_pos hr, if_neg hnn]
  · intro hr
    unfold rowTooltipSelector rowTooltipRatioValue jsToFixed0
    rw [if_neg (not_lt.mpr hr), if_neg (by norm_num)]
    norm_num
    rfl

/-- Witness for C9 (amended) at concrete rows. -/
theorem C9_tooltip_amended_witness :
    rowTooltipSelector ⟨"a", 5, 0⟩ = "<span>Ratio: 0%</span>" :=
  (C9_tooltip_amended ⟨"a", 5, 0⟩).2 le_rfl

/-- Counterexample to claim C9 as stated: for the row `left = 1,
right = -1` the code displays `0%`, while the claimed formula
`round(100 * left / right)` is `-100`, so the claimed display would be
`-100%`. -/
theorem C9_tooltip_counterexample :
    rowTooltipSelector ⟨"a", 1, -1⟩ = "<span>Ratio: 0%</span>" ∧
    toString (Int.floor ((1 : ℚ) / (-1) * 100 + 1 / 2)) = "-100" ∧
    ("<span>Ratio: 0%</span>" : String) ≠ "<span>Ratio: -100%</span>" := by
  refine ⟨?_, ?_, ?_⟩
  · rw [rowTooltipSelector, rowTooltipRatioValue, if_neg (by norm_num)]
    rw [jsToFixed0, if_neg (by norm_num)]
    norm_num
    rfl
  · norm_num
    rfl
  · decide

/-- Claim C4 (amended): the left value label is right-aligned
(`text-anchor: end`) and ends 5 pixels to the left of the left bar's
outer (left) edge — at `barOriginX - leftBarWidth(left) - 5`, not at
`barOriginX - 5`; the right value label is left-aligned (the SVG default
anchor `start`) and starts 5 pixels to the right of the right bar's outer
(right) edge — at `barOriginX + rightBarWidth(right) + 5`. -/
theorem C4_value_label_positions_amended (st : DoubleBar) (v w : ℚ) :
    leftValueTextAnchor = "end" ∧
    rightValueTextAnchor = "start" ∧
    leftValueLabelX st v = (leftBarXAttr st v).map (fun xe => xe - 5) ∧
    rightValueLabelX st w
      = (rightBarWidthAt st w).map (fun bw => rightBarXAttr st + bw + 5) := by
  refine ⟨rfl, rfl, ?_, rfl⟩
  unfold leftValueLabelX leftBarXAttr
  cases leftBarWidthAt st v with
  | none => rfl
  | some bw => rfl

/-- Counterexample to claim C4 as stated: after a full update cycle on
concrete data (width 600, measured label width 20, rows with left values
10 and 30), the left value label of the value-10 row ends at `1033/3`,
which is not `barOriginX - 5 = 400`. -/
theorem C4_value_label_counterexample :
    leftValueLabelX (updateAsync (fun _ => 20) initialVis 600 200 ⟨1, 2, 0⟩
        ⟨[⟨"Alpha", 10, 20⟩, ⟨"Beta", 30, 5⟩], "L", "R"⟩).1 10
      = some (1033 / 3) ∧
    barOriginX (updateAsync (fun _ => 20) initialVis 600 200 ⟨1, 2, 0⟩
        ⟨[⟨"Alpha", 10, 20⟩, ⟨"Beta", 30, 5⟩], "L", "R"⟩).1 - 5 = 400 ∧
    some ((1033 : ℚ) / 3) ≠ some (400 : ℚ) := by
  refine ⟨?_, ?_, ?_⟩
  · norm_num [leftValueLabelX, leftBarWidthAt, updateAsync, validateInputs,
      handleErrors, setupInputs, determineMaxBarValueWidth, setupRender,
      scaleLinearApply, d3ExtentMax, d3ExtentStep, jsMax, halfGraphBarMaxWidth,
      halfGraphWidth, graphWidth, barOriginX, initialVis, List.foldl]
  · norm_num [updateAsync, validateInputs, handleErrors, setupInputs,
      determineMaxBarValueWidth, setupRender, barOriginX, halfGraphWidth,
      graphWidth, initialVis]
  · simp only [ne_eq, Option.some.injEq]
    norm_num

/-- Claim C5 (amended): if every left and right value in the (nonempty)
row set is 0, then `maxOfBoth = 0` and both value scales have the
degenerate domain `[0, 0]`; per d3's `continuous.js` they then map every
input value to the midpoint of the range, `(1 + halfGraphBarMaxWidth)/2`
— not to the range minimum of 1 pixel — so every bar renders with that
midpoint width; this is not an error (the cycle still completes). -/
theorem C5_all_zero_amended (measure : ℚ → ℚ) (st : DoubleBar)
    (lt rt : String) (x : DoubleBarRow) (xs : List DoubleBarRow)
    (hz : ∀ r ∈ x :: xs, r.left = 0 ∧ r.right = 0) (v : ℚ) :
    leftBarWidthAt (determineMaxBarValueWidth measure
        (setupInputs st ⟨x :: xs, lt, rt⟩) (x :: xs)) v
      = some ((1 + halfGraphBarMaxWidth (determineMaxBarValueWidth measure
          (setupInputs st ⟨x :: xs, lt, rt⟩) (x :: xs))) / 2) ∧
    rightBarWidthAt (determineMaxBarValueWidth measure
        (setupInputs st ⟨x :: xs, lt, rt⟩) (x :: xs)) v
      = some ((1 + halfGraphBarMaxWidth (determineMaxBarValueWidth measure
          (setupInputs st ⟨x :: xs, lt, rt⟩) (x :: xs))) / 2) := by
  have hml : List.foldl max x.left (xs.map DoubleBarRow.left) = 0 := by
    rw [(hz x (List.mem_cons_self x xs)).1]
    refine foldl_max_all_zero _ fun a ha => ?_
    rcases List.mem_map.mp ha with ⟨r, hr, rfl⟩
    exact (hz r (List.mem_cons_of_mem x hr)).1
  have hmr : List.foldl max x.right (xs.map DoubleBarRow.right) = 0 := by
    rw [(hz x (List.mem_cons_self x xs)).2]
    refine foldl_max_all_zero _ fun a ha => ?_
    rcases List.mem_map.mp ha with ⟨r, hr, rfl⟩
    exact (hz r (List.mem_cons_of_mem x hr)).2
  have hdl : (setupInputs st ⟨x :: xs, lt, rt⟩).leftDomain = ((0 : ℚ), some 0) := by
    unfold setupInputs
    simp [d3ExtentMax_cons, jsMax, hml, hmr]
  have hdr : (setupInputs st ⟨x :: xs, lt, rt⟩).rightDomain = ((0 : ℚ), some 0) := by
    unfold setupInputs
    simp [d3ExtentMax_cons, jsMax, hml, hmr]
  constructor
  · unfold leftBarWidthAt
    rw [show (determineMaxBarValueWidth measure
        (setupInputs st ⟨x :: xs, lt, rt⟩) (x :: xs)).leftDomain
      = ((0 : ℚ), some 0) from hdl]
    simp only [scaleLinearApply]
    rw [if_pos (by norm_num)]
    congr 1
    ring
  · unfold rightBarWidthAt
    rw [show (determineMaxBarValueWidth measure
        (setupInputs st ⟨x :: xs, lt, rt⟩) (x :: xs)).rightDomain
      = ((0 : ℚ), some 0) from hdr]
    simp only [scaleLinearApply]
    rw [if_pos (by norm_num)]
    congr 1
    ring

/-- Witness for C5 (amended) at a concrete all-zero single-row input. -/
theorem C5_all_zero_amended_witness :
    leftBarWidthAt (determineMaxBarValueWidth (fun _ => 20)
        (setupInputs { initialVis with width := 600, height := 200 }
          ⟨[⟨"a", 0, 0⟩], "L", "R"⟩) [⟨"a", 0, 0⟩]) 0
      = some ((1 + halfGraphBarMaxWidth (determineMaxBarValueWidth (fun _ => 20)
          (setupInputs { initialVis with width := 600, height := 200 }
            ⟨[⟨"a", 0, 0⟩], "L", "R"⟩) [⟨"a", 0, 0⟩])) / 2) :=
  (C5_all_zero_amended (fun _ => 20) { initialVis with width := 600, height := 200 }
    "L" "R" ⟨"a", 0, 0⟩ []
    (by
      intro r hr
      rw [List.mem_singleton] at hr
      rw [hr]
      exact ⟨rfl, rfl⟩) 0).1

/-- Counterexample to claim C5 as stated: with the all-zero single-row
set, width 600 and measured label width 20, the left scale maps 0 to 83
(the midpoint of the range `[1, 165]`), not to the claimed range minimum
of 1, so the bar width is 83 and not 1. -/
theorem C5_all_zero_counterexample :
    leftBarWidthAt (determineMaxBarValueWidth (fun _ => 20)
        (setupInputs { initialVis with width := 600, height := 200 }
          ⟨[⟨"a", 0, 0⟩], "L", "R"⟩) [⟨"a", 0, 0⟩]) 0 = some 83 ∧
    some (83 : ℚ) ≠ some (1 : ℚ) := by
  constructor
  · norm_num [leftBarWidthAt, determineMaxBarValueWidth, setupInputs,
      scaleLinearApply, d3ExtentMax, d3ExtentStep, jsMax, halfGraphBarMaxWidth,
      halfGraphWidth, graphWidth, initialVis, List.foldl]
  · simp only [ne_eq, Option.some.injEq]
    norm_num

lemma setupRender_sceneRowGroups (st : DoubleBar) (d : DoubleBarData)
    (hc : svgConsistent st) : (setupRender st d).sceneRowGroups = d.rows.length := by
  unfold setupRender
  unfold svgConsistent at hc
  cases hsvg : st.svgRows with
  | none =>
    rw [hsvg] at hc
    simp at hc
    simp [hsvg, hc]
  | some k =>
    rw [hsvg] at hc
    simp at hc
    simp [hsvg, hc]

lemma svgConsistent_update (measure : ℚ → ℚ) (st : DoubleBar) (w h : ℚ)
    (q : QueryShape) (d : DoubleBarData) (hc : svgConsistent st) :
    svgConsistent (updateAsync measure st w h q d).1 := by
  cases hq : validateInputs q with
  | true =>
    rw [updateAsync_valid measure st w h q d hq]
    show svgConsistent (setupRender (determineMaxBarValueWidth measure
      (setupInputs { st with width := w, height := h } d) d.rows) d)
    unfold svgConsistent
    exact setupRender_sceneRowGroups _ d hc
  | false =>
    rw [updateAsync_invalid measure st w h q d hq]
    exact hc

lemma updateAsync_titleCount (measure : ℚ → ℚ) (st : DoubleBar) (w h : ℚ)
    (q : QueryShape) (d : DoubleBarData) (hq : validateInputs q = true) :
    (updateAsync measure st w h q d).1.titleCount = st.titleCount + 2 := by
  rw [updateAsync_valid measure st w h q d hq]
  rfl

lemma updateAsync_sceneRowGroups (measure : ℚ → ℚ) (st : DoubleBar) (w h : ℚ)
    (q : QueryShape) (d : DoubleBarData) (hq : validateInputs q = true)
    (hc : svgConsistent st) :
    (updateAsync measure st w h q d).1.sceneRowGroups = d.rows.length := by
  rw [updateAsync_valid measure st w h q d hq]
  exact setupRender_sceneRowGroups _ d hc

lemma runCycles_spec (measure : ℚ → ℚ) (w h : ℚ) (q : QueryShape)
    (hq : validateInputs q = true) :
    ∀ (ds : List DoubleBarData) (d : DoubleBarData) (st : DoubleBar),
      svgConsistent st →
      (runCycles measure w h q st (d :: ds)).sceneRowGroups
          = (ds.getLastD d).rows.length ∧
      (runCycles measure w h q st (d :: ds)).titleCount
          = st.titleCount + 2 * (ds.length + 1) := by
  intro ds
  induction ds with
  | nil =>
    intro d st hc
    constructor
    · exact updateAsync_sceneRowGroups measure st w h q d hq hc
    · rw [show runCycles measure w h q st [d]
          = (updateAsync measure st w h q d).1 from rfl]
      rw [updateAsync_titleCount measure st w h q d hq]
      simp
  | cons d2 rest ih =>
    intro d st hc
    rw [show runCycles measure w h q st (d :: d2 :: rest)
        = runCycles measure w h q (updateAsync measure st w h q d).1 (d2 :: rest)
      from rfl]
    rcases ih d2 (updateAsync measure st w h q d).1
      (svgConsistent_update measure st w h q d hc) with ⟨h1, h2⟩
    constructor
    · rw [h1, List.getLastD_cons]
    · rw [h2, updateAsync_titleCount measure st w h q d hq]
      simp [List.length_cons]
      omega

/-- Claim C10: starting from the freshly created instance, after `n ≥ 1`
successful update cycles the scene contains exactly as many `g.chart-row`
groups as the latest dataset has rows (each cycle removes the prior
cycle's groups before creating one per row), but `2 * n` title text
elements, since `setupRender` appends two fresh title texts each cycle
and never removes old ones. -/
theorem C10_scene_and_title_accumulation (measure : ℚ → ℚ) (w h : ℚ)
    (q : QueryShape) (d : DoubleBarData) (ds : List DoubleBarData)
    (hq : validateInputs q = true) :
    (runCycles measure w h q initialVis (d :: ds)).sceneRowGroups
        = (ds.getLastD d).rows.length ∧
    (runCycles measure w h q initialVis (d :: ds)).titleCount
        = 2 * (d :: ds).length := by
  rcases runCycles_spec measure w h q hq ds d initialVis rfl with ⟨h1, h2⟩
  refine ⟨h1, ?_⟩
  rw [h2]
  simp [initialVis, List.length_cons]

/-- Witness for C10 after one concrete successful cycle. -/
theorem C10_scene_and_title_accumulation_witness :
    (runCycles (fun _ => (0 : ℚ)) 600 200 ⟨1, 2, 0⟩ initialVis
        [⟨[⟨"a", 1, 2⟩], "L", "R"⟩]).titleCount = 2 :=
  (C10_scene_and_title_accumulation (fun _ => (0 : ℚ)) 600 200 ⟨1, 2, 0⟩
    ⟨[⟨"a", 1, 2⟩], "L", "R"⟩ [] rfl).2

/-- Claim C8 (amended): a zero-row dataset that passes validation
completes the cycle without failing — the completion callback fires once
and zero row groups are created — but the value scales do not degenerate
to the range minimum: `d3.extent` of the empty row list yields
`undefined` maxima, `Math.max` turns them into `NaN`, so both value-scale
domains become `[0, NaN]` and the scales would map any value to `NaN`;
no value is ever mapped since there are no rows, and the row scale's
domain is empty. -/
theorem C8_zero_rows_amended (measure : ℚ → ℚ) (st : DoubleBar) (w h : ℚ)
    (q : QueryShape) (lt rt : String) (hq : validateInputs q = true)
    (hc : svgConsistent st) :
    (updateAsync measure st w h q ⟨[], lt, rt⟩).2 = 1 ∧
    (updateAsync measure st w h q ⟨[], lt, rt⟩).1.sceneRowGroups = 0 ∧
    (updateAsync measure st w h q ⟨[], lt, rt⟩).1.leftDomain = (0, none) ∧
    (updateAsync measure st w h q ⟨[], lt, rt⟩).1.rightDomain = (0, none) ∧
    (updateAsync measure st w h q ⟨[], lt, rt⟩).1.rowDomain = [] ∧
    ∀ v, leftBarWidthAt (updateAsync measure st w h q ⟨[], lt, rt⟩).1 v = none ∧
      rightBarWidthAt (updateAsync measure st w h q ⟨[], lt, rt⟩).1 v = none := by
  rw [updateAsync_valid measure st w h q ⟨[], lt, rt⟩ hq]
  refine ⟨rfl, ?_, rfl, rfl, rfl, fun v => ⟨rfl, rfl⟩⟩
  exact setupRender_sceneRowGroups _ _ hc

/-- Witness for C8 (amended) at a concrete zero-row update. -/
theorem C8_zero_rows_amended_witness :
    (updateAsync (fun _ => (0 : ℚ)) initialVis 600 200 ⟨1, 2, 0⟩
      ⟨[], "L", "R"⟩).1.sceneRowGroups = 0 :=
  (C8_zero_rows_amended (fun _ => (0 : ℚ)) initialVis 600 200 ⟨1, 2, 0⟩
    "L" "R" rfl rfl).2.1

/-- Counterexample to claim C8 as stated: after a zero-row update the
left value scale maps 0 to `NaN` (`none`), not to the range minimum
`1`. -/
theorem C8_zero_rows_counterexample :
    leftBarWidthAt (updateAsync (fun _ => (0 : ℚ)) initialVis 600 200 ⟨1, 2, 0⟩
        ⟨[], "L", "R"⟩).1 0 = none ∧
    (none : Option ℚ) ≠ some 1 := by
  exact ⟨rfl, by simp⟩
